import Mathlib

/-!
Verification of the prompt-assembly pipeline of the Discovery generative-AI
prototype app (`app.py`).  The UI builds role-tagged message lists for the
EYFS activity-plan flow, optionally rebuilds them from a custom prompt,
appends the immediate user request as a trailing user message and sends the
result to a remote chat-completion endpoint.  The Generator orchestrator and
the Prompt Composer described by the design document live in a package that
is not part of this tree; they are modelled from the spec where needed and
each such definition says so in its doc comment.
-/

namespace DiscoveryGenAI

/-- ASCII apostrophe, spliced into string constants taken from the source. -/
def apos : String := String.singleton (Char.ofNat 39)

/-- A chat message: a role string plus text content, as the role/content
dictionaries built in `app.py`.  The source keeps roles as plain strings. -/
structure Message where
  role : String
  content : String
deriving DecidableEq

/-- An ordered message list sent to the completion endpoint. -/
abbrev Conversation := List Message

/-- Content of the fixed system message of the activity-plan flow. -/
def systemMessageContent : String :=
  "You are a passionate, energetic early year educator in the UK."

/-- Python renders a quote-free string inside a list display as the string
between two single quotes; the area-of-learning options contain no quote
characters, so this covers every element reaching the call site. -/
def pyStrLit (s : String) : String := apos ++ s ++ apos

/-- Elements of a Python list display, separated by a comma and a space. -/
def pyListReprAux : List String → String
  | [] => ""
  | [x] => pyStrLit x
  | x :: y :: xs => pyStrLit x ++ ", " ++ pyListReprAux (y :: xs)

/-- Python `str` of a list of strings: the bracketed, quoted list display
produced when an f-string interpolates a list value. -/
def pyListRepr (xs : List String) : String := "[" ++ pyListReprAux xs ++ "]"

/-- The comma-separated join the spec prescribes for sequence-valued
placeholders; stated from the spec for comparison with the source. -/
def commaJoin : List String → String
  | [] => ""
  | [x] => x
  | x :: y :: xs => x ++ ", " ++ commaJoin (y :: xs)

/-- Content of the third default message: the requirements f-string, with
the selected areas of learning interpolated the way Python renders a list. -/
def requirementsContent (areas_of_learning : List String) (n_results : Nat)
    (difficulty location : String) : String :=
  "###Requirements for the activities###\n1. Your suggestions must be fun and engaging for the children.\n2. Your suggestions must be novel, inspiring and memorable.\n3. Your proposed activities engage children in the following Areas of Learning: "
    ++ pyListRepr areas_of_learning
    ++ ".\n4. You must generate " ++ toString n_results
    ++ " activities.\n5. Your proposed activities must be " ++ difficulty
    ++ ".\n6. Your proposed activities must be played " ++ location

/-- The same requirements message rendered as the spec words it: the
sequence value joined comma-separated.  Stated from the spec, to be
compared with `requirementsContent` from the source. -/
def requirementsContentJoined (areas_of_learning : List String) (n_results : Nat)
    (difficulty location : String) : String :=
  "###Requirements for the activities###\n1. Your suggestions must be fun and engaging for the children.\n2. Your suggestions must be novel, inspiring and memorable.\n3. Your proposed activities engage children in the following Areas of Learning: "
    ++ commaJoin areas_of_learning
    ++ ".\n4. You must generate " ++ toString n_results
    ++ " activities.\n5. Your proposed activities must be " ++ difficulty
    ++ ".\n6. Your proposed activities must be played " ++ location

/-- Content of the second default message: the full EYFS framework
context and instructions prompt. -/
def eyfsContextContent : String :=
  "###Context###The UK"
  ++ apos ++
  "s Early Years Foundation Stage framework recommends that educational programmes must involve activities and experiences for children, as set out under each of the areas of learning described below.\n\n##Areas of Learning###\n##Communication and Language##\nThe development of children’s spoken language underpins all seven areas of learning and development. Children’s back-and-forth interactions from an early age form the foundations for language and cognitive development. The number and quality of the conversations they have with adults and peers throughout the day in a language-rich environment is crucial. By commenting on what children are interested in or doing, and echoing back what they say with new vocabulary added, practitioners will build children"
  ++ apos ++
  "s language effectively. Reading frequently to children, and engaging them actively in stories, non-fiction, rhymes and poems, and then providing them with extensive opportunities to use and embed new words in a range of contexts, will give children the opportunity to thrive. Through conversation, story-telling and role play, where children share their ideas with support and modelling from their teacher, and sensitive questioning that invites them to elaborate, children become comfortable using a rich range of vocabulary and language structures.\n\n##Personal, Social and Emotional Development##\nChildren’s personal, social and emotional development (PSED) is crucial for children to lead healthy and happy lives, and is fundamental to their cognitive development. Underpinning their personal development are the important attachments that shape their social world. Strong, warm and supportive relationships with adults enable children to learn how to understand their own feelings and those of others. Children should be supported to manage emotions, develop a positive sense of self, set themselves simple goals, have confidence in their own abilities, to persist and wait for what they want and direct attention as necessary. Through adult modelling and guidance, they will learn how to look after their bodies, including healthy eating, and manage personal needs independently. Through supported interaction with other children, they learn how to make good friendships, co-operate and resolve conflicts peaceably. These attributes will provide a secure platform from which children can achieve at school and in later life.\n\n##Physical Development##\nPhysical activity is vital in children’s all-round development, enabling them to pursue happy, healthy and active lives7. Gross and fine motor experiences develop incrementally throughout early childhood, starting with sensory explorations and the development of a child’s strength, co-ordination and positional awareness through tummy time, crawling and play movement with both objects and adults. By creating games and providing opportunities for play both indoors and outdoors, adults can support children to develop their core strength, stability, balance, spatial awareness, co-ordination and agility. Gross motor skills provide the foundation for developing healthy bodies and social and emotional well-being. Fine motor control and precision helps with hand-eye co-ordination, which is later linked to early literacy. Repeated and varied opportunities to explore and play with small world activities, puzzles, arts and crafts and the practice of using small tools, with feedback and support from adults, allow children to develop proficiency, control and confidence.\n\n##Literacy##\nIt is crucial for children to develop a life-long love of reading. Reading consists of two dimensions: language comprehension and word reading. Language comprehension (necessary for both reading and writing) starts from birth. It only develops when adults talk with children about the world around them and the books (stories and non-fiction) they read with them, and enjoy rhymes, poems and songs together. Skilled word reading, taught later, involves both the speedy working out of the pronunciation of unfamiliar printed words (decoding) and the speedy recognition of familiar printed words. Writing involves transcription (spelling and handwriting) and composition (articulating ideas and structuring them in speech, before writing).\n\n##Mathematics##\nDeveloping a strong grounding in number is essential so that all children develop the necessary building blocks to excel mathematically. Children should be able to count confidently, develop a deep understanding of the numbers to 10, the relationships between them and the patterns within those numbers. By providing frequent and varied opportunities to build and apply this understanding - such as using manipulatives, including small pebbles and tens frames for organising counting - children will develop a secure base of knowledge and vocabulary from which mastery of mathematics is built. In addition, it is important that the curriculum includes rich opportunities for children to develop their spatial reasoning skills across all areas of mathematics including shape, space and measures. It is important that children develop positive attitudes and interests in mathematics, look for patterns and relationships, spot connections, ‘have a go’, talk to adults and peers about what they notice and not be afraid to make mistakes.\n\n##Understanding the World##\nUnderstanding the world involves guiding children to make sense of their physical world and their community. The frequency and range of children’s personal experiences increases their knowledge and sense of the world around them – from visiting parks, libraries and museums to meeting important members of society such as police officers, nurses and firefighters. In addition, listening to a broad selection of stories, non-fiction, rhymes and poems will foster their understanding of our culturally, socially, technologically and ecologically diverse world. As well as building important knowledge, this extends their familiarity with words that support understanding across domains. Enriching and widening children’s vocabulary will support later reading comprehension.\n\n##Expressive Arts and Design##\nThe development of children’s artistic and cultural awareness supports their imagination and creativity. It is important that children have regular opportunities to engage with the arts, enabling them to explore and play with a wide range of media and materials. The quality and variety of what children see, hear and participate in is crucial for developing their understanding, self-expression, vocabulary and ability to communicate through the arts. The frequency, repetition and depth of their experiences are fundamental to their progress in interpreting and appreciating what they hear, respond to and observe.\n\n###Instructions###\nI am an early years educator and I am working with children 3-4 years old. I will describe you a situation in the ###Description### section. Your task is to propose activities such as puzzles, games, role play, arts and crafts that I could plan for the children to extend their learning.\n\n###Formatting###\nReturn the proposed activities in the following format:\n## <activity_name>\n\n**Activity description**:<activity_description>\n\n**Areas of learning**:<list_of_areas_of_learning>\n\n"

/-- The default conversation of the activity-plan flow: one system message
and two user messages, the last interpolating the sidebar selections. -/
def defaultMessages (areas_of_learning : List String) (n_results : Nat)
    (difficulty location : String) : Conversation :=
  [ { role := "system", content := systemMessageContent },
    { role := "user", content := eyfsContextContent },
    { role := "user",
      content := requirementsContent areas_of_learning n_results difficulty location } ]

/-- `get_messages_by_role`: the contents of the messages whose role equals
the given role, in list order; a pure list comprehension. -/
def get_messages_by_role (messages : List Message) (role : String) : List String :=
  (messages.filter (fun message => message.role == role)).map
    (fun message => message.content)

/-- The system prompt shown and reused by the custom-prompt path: the
empty-separator join of all system-message contents. -/
def selected_system_messages (areas_of_learning : List String) (n_results : Nat)
    (difficulty location : String) : String :=
  String.join
    (get_messages_by_role (defaultMessages areas_of_learning n_results difficulty location)
      "system")

/-- The default user prompt offered for editing: the user-message contents
joined by blank lines. -/
def selected_user_messages_default (areas_of_learning : List String) (n_results : Nat)
    (difficulty location : String) : String :=
  String.intercalate "\n\n"
    (get_messages_by_role (defaultMessages areas_of_learning n_results difficulty location)
      "user")

/-- The conversation rebuilt when the custom-prompt option is selected:
one system message holding the joined system contents, then one user
message holding the edited text. -/
def customMessages (areas_of_learning : List String) (n_results : Nat)
    (difficulty location : String) (user_message : String) : Conversation :=
  [ { role := "system",
      content := selected_system_messages areas_of_learning n_results difficulty location },
    { role := "user", content := user_message } ]

/-- Content of the trailing request message built from the description box. -/
def requestContent (description : String) : String :=
  "###Description###\n" ++ description ++ "\n\n###Activities###\n"

/-- `messages.append(...)` just before the completion call: the ad-hoc
trailing user message carrying the immediate request. -/
def appendRequest (messages : Conversation) (description : String) : Conversation :=
  messages ++ [{ role := "user", content := requestContent description }]

/-- The request record handed to the chat-completion endpoint. -/
structure CompletionRequest where
  model : String
  messages : Conversation
  temperature : ℚ

/-- The completion call of the activity-plan flow: selected model, the
assembled message list, and a temperature fixed at zero. -/
def chatCompletionCreate (selected_model : String) (messages : Conversation) :
    CompletionRequest :=
  { model := selected_model, messages := messages, temperature := 0 }

/-- One choice of a chat-completion response. -/
structure Choice where
  message : Message

/-- A chat-completion response: its list of choices. -/
structure CompletionResponse where
  choices : List Choice

/-- The text the flow writes back to the user: the content of the message of
the first choice of the response, when a first choice exists. -/
def displayedAnswer (r : CompletionResponse) : Option String :=
  r.choices.head?.map (fun c => c.message.content)

/-- The remote text-generation operations the UI layer invokes: the core
generate operation, or a direct chat-completion call. -/
inductive RemoteCall where
  | coreGenerate (question : String) (prompt : Option String)
  | directChatCompletion (req : CompletionRequest)

/-- The remote call issued by the ELI3 flow when Generate is pressed. -/
def eli3RemoteCall (question : String) (prompt : Option String) : RemoteCall :=
  RemoteCall.coreGenerate question prompt

/-- The remote call issued by the activity-plan flow when Generate is
pressed: a direct chat-completion call, not the core generate operation. -/
def activityPlanRemoteCall (selected_model : String) (messages : Conversation) :
    RemoteCall :=
  RemoteCall.directChatCompletion (chatCompletionCreate selected_model messages)

/-- Whether a remote call goes through the single exposed core operation. -/
def RemoteCall.isCoreGenerate : RemoteCall → Bool
  | RemoteCall.coreGenerate _ _ => true
  | RemoteCall.directChatCompletion _ => false

/-- Modelled from the spec: a template fragment is text with literal runs and
named placeholder references; the Prompt Composer code is not in this tree. -/
inductive TemplatePart where
  | lit (s : String)
  | placeholder (name : String)

/-- Modelled from the spec: a Template is a role together with placeholder-
bearing text. -/
structure Template where
  role : String
  parts : List TemplatePart

/-- Modelled from the spec: the component-level error taxonomy of section 7. -/
inductive ComponentError where
  | notFoundError (ref : String)
  | malformedTemplateError (ref : String)
  | missingPlaceholder (name : String) (templateIndex : Nat)
  | duplicateIdError (id : String)
  | embeddingServiceError (reason : String)
  | completionServiceError (reason : String)
deriving DecidableEq

/-- Modelled from the spec: substitute every placeholder occurrence of a
template's parts, failing on a name absent from the mapping. -/
def renderParts (placeholders : List (String × String)) (templateIndex : Nat) :
    List TemplatePart → Except ComponentError String
  | [] => Except.ok ""
  | TemplatePart.lit s :: rest =>
      (renderParts placeholders templateIndex rest).map (fun t => s ++ t)
  | TemplatePart.placeholder n :: rest =>
      match placeholders.lookup n with
      | some v => (renderParts placeholders templateIndex rest).map (fun t => v ++ t)
      | none => Except.error (ComponentError.missingPlaceholder n templateIndex)

/-- Modelled from the spec: compose each template in order, copying its role
verbatim and substituting its placeholders; index tracks position. -/
def composeAux (placeholders : List (String × String)) :
    Nat → List Template → Except ComponentError Conversation
  | _, [] => Except.ok []
  | i, t :: ts => do
      let c ← renderParts placeholders i t.parts
      let rest ← composeAux placeholders (i + 1) ts
      Except.ok ({ role := t.role, content := c } :: rest)

/-- Modelled from the spec: `compose(templates, placeholders)` of 4.2. -/
def compose (templates : List Template) (placeholders : List (String × String)) :
    Except ComponentError Conversation :=
  composeAux placeholders 0 templates

/-- The stage at which a generation failure occurred. -/
inductive Stage where
  | composing
  | retrieval
  | appending
  | completing
deriving DecidableEq

/-- The single failure type the orchestrator exposes: stage plus cause. -/
structure GenerationError where
  stage : Stage
  cause : ComponentError
deriving DecidableEq

/-- The configuration record of the generate operation. -/
structure GenConfig where
  model : String
  temperature : ℚ
  templates : List Template
  placeholders : List (String × String)
  useRetrieval : Bool
  k : Nat

/-- Modelled from the spec: the Generator orchestrator of 4.6.  The retrieval
and completion components are parameters whose code is not in this tree; each
step's failure is wrapped into a `GenerationError` with its stage. -/
def generate
    (retrieveF : String → Nat → Except ComponentError (List String))
    (completeF : Conversation → String → ℚ → Except ComponentError String)
    (request : String) (config : GenConfig) : Except GenerationError String := do
  let base ← (compose config.templates config.placeholders).mapError
    (fun c => { stage := Stage.composing, cause := c })
  let grounded ←
    if config.useRetrieval then
      ((retrieveF request config.k).mapError
        (fun c => ({ stage := Stage.retrieval, cause := c } : GenerationError))).map
        (fun texts => base ++ texts.map (fun t => { role := "user", content := t }))
    else Except.ok base
  let conv := grounded ++ [{ role := "user", content := request }]
  (completeF conv config.model config.temperature).mapError
    (fun c => { stage := Stage.completing, cause := c })

/-- Roles the design document admits for a message. -/
def validRole (r : String) : Prop := r = "system" ∨ r = "user" ∨ r = "assistant"

/-- System messages precede user messages: no earlier user message is
followed by a later system message. -/
def systemFirst (conv : Conversation) : Prop :=
  conv.Pairwise (fun a b => a.role = "user" → b.role ≠ "system")

/-- The end-to-end scenario templates of the spec's testable properties. -/
def demoTemplates : List Template :=
  [ { role := "system", parts := [TemplatePart.lit "You are a helper."] },
    { role := "user",
      parts := [TemplatePart.lit "Explain ", TemplatePart.placeholder "topic",
        TemplatePart.lit " simply."] } ]

/-- The placeholder mapping of the end-to-end scenario. -/
def demoPlaceholders : List (String × String) := [("topic", "gravity")]

/-- The conversation the end-to-end scenario composes. -/
def demoConv : Conversation :=
  [ { role := "system", content := "You are a helper." },
    { role := "user", content := "Explain gravity simply." } ]

/-- A retrieval-free configuration with no templates, for exercising the
orchestrator's error wrapping. -/
def demoConfig : GenConfig :=
  { model := "gpt-4", temperature := 0, templates := [], placeholders := [],
    useRetrieval := false, k := 1 }

/-- A completion component that always fails remotely. -/
def failingCompleteF : Conversation → String → ℚ → Except ComponentError String :=
  fun _ _ _ => Except.error (ComponentError.completionServiceError "remote failure")

/-- A retrieval component that returns no grounding texts. -/
def emptyRetrieveF : String → Nat → Except ComponentError (List String) :=
  fun _ _ => Except.ok []

theorem length_pyStrLit (s : String) : (pyStrLit s).length = s.length + 2 := by
  have h : apos.length = 1 := rfl
  simp [pyStrLit, String.length_append, h]
  omega

theorem pyListReprAux_length (xs : List String) :
    (pyListReprAux xs).length = (commaJoin xs).length + 2 * xs.length := by
  induction xs with
  | nil => simp [pyListReprAux, commaJoin]
  | cons x xs ih =>
      cases xs with
      | nil => simp [pyListReprAux, commaJoin, length_pyStrLit]
      | cons y ys =>
          simp only [pyListReprAux, commaJoin, String.length_append,
            length_pyStrLit, List.length_cons] at *
          omega

theorem pyListRepr_ne_commaJoin (xs : List String) :
    pyListRepr xs ≠ commaJoin xs := by
  intro h
  have hlen := congrArg String.length h
  have hb : ("[" : String).length = 1 := rfl
  have hc : ("]" : String).length = 1 := rfl
  simp only [pyListRepr, String.length_append, pyListReprAux_length, hb, hc] at hlen
  omega

theorem composeAux_spec (ph : List (String × String)) :
    ∀ (ts : List Template) (i : Nat) (conv : Conversation),
      composeAux ph i ts = Except.ok conv →
      conv.length = ts.length ∧ conv.map Message.role = ts.map Template.role := by
  intro ts
  induction ts with
  | nil =>
      intro i conv h
      simp [composeAux] at h
      subst h
      simp
  | cons t ts ih =>
      intro i conv h
      simp only [composeAux, bind, Except.bind] at h
      cases h1 : renderParts ph i t.parts with
      | error e => rw [h1] at h; exact absurd h (by simp)
      | ok c =>
          rw [h1] at h
          cases h2 : composeAux ph (i + 1) ts with
          | error e => rw [h2] at h; exact absurd h (by simp)
          | ok rest =>
              rw [h2] at h
              have hconv : ({ role := t.role, content := c } : Message) :: rest = conv := by
                simpa using h
              obtain ⟨hl, hr⟩ := ih (i + 1) rest h2
              subst hconv
              simp [hl, hr]

/-- C1 counterexample: with two selected areas of learning the rendered
requirements message is not the comma-separated-join rendering the spec
describes — Python interpolates the list as its bracketed, quoted display. -/
theorem sequence_render_not_comma_join_cex :
    requirementsContent ["Literacy", "Mathematics"] 5 "Medium" "Indoor" ≠
      requirementsContentJoined ["Literacy", "Mathematics"] 5 "Medium" "Indoor" := by
  intro h
  have hlen := congrArg String.length h
  have hb : ("[" : String).length = 1 := rfl
  have hc : ("]" : String).length = 1 := rfl
  simp only [requirementsContent, requirementsContentJoined, String.length_append,
    pyListRepr, pyListReprAux_length, hb, hc] at hlen
  omega

/-- C1 amended: the sequence placeholder is rendered into the message content
through Python's string form of the list — the bracketed, quoted list
display — which embeds in the content and differs from the bare
comma-separated join of the elements for every list. -/
theorem sequence_render_is_python_list_display (areas_of_learning : List String)
    (n_results : Nat) (difficulty location : String) :
    (∃ u v : String,
        requirementsContent areas_of_learning n_results difficulty location =
          u ++ (pyListRepr areas_of_learning ++ v)) ∧
    pyListRepr areas_of_learning ≠ commaJoin areas_of_learning := by
  refine ⟨?_, pyListRepr_ne_commaJoin areas_of_learning⟩
  refine ⟨"###Requirements for the activities###\n1. Your suggestions must be fun and engaging for the children.\n2. Your suggestions must be novel, inspiring and memorable.\n3. Your proposed activities engage children in the following Areas of Learning: ",
    ".\n4. You must generate " ++ toString n_results
      ++ " activities.\n5. Your proposed activities must be " ++ difficulty
      ++ ".\n6. Your proposed activities must be played " ++ location, ?_⟩
  simp only [requirementsContent, String.append_assoc]

/-- Witness for the amended C1 theorem at a concrete selection. -/
theorem sequence_render_is_python_list_display_witness :
    (∃ u v : String,
        requirementsContent ["Literacy"] 5 "Medium" "Indoor" =
          u ++ (pyListRepr ["Literacy"] ++ v)) ∧
    pyListRepr ["Literacy"] ≠ commaJoin ["Literacy"] :=
  sequence_render_is_python_list_display ["Literacy"] 5 "Medium" "Indoor"

/-- C3 counterexample: the activity-plan flow's remote call is not the core
generate operation — it invokes the chat-completion service directly. -/
theorem ui_single_entrypoint_cex :
    RemoteCall.isCoreGenerate (activityPlanRemoteCall "gpt-4" []) = false := rfl

/-- C3 amended: the ELI3 flow reaches the completion service only through the
core generate operation, but the activity-plan flow bypasses it and calls the
remote chat-completion operation directly with its assembled messages. -/
theorem ui_remote_call_shape (question : String) (prompt : Option String)
    (selected_model : String) (messages : Conversation) :
    RemoteCall.isCoreGenerate (eli3RemoteCall question prompt) = true ∧
    RemoteCall.isCoreGenerate (activityPlanRemoteCall selected_model messages) = false ∧
    activityPlanRemoteCall selected_model messages =
      RemoteCall.directChatCompletion
        { model := selected_model, messages := messages, temperature := 0 } :=
  ⟨rfl, rfl, rfl⟩

/-- C5: appending the trailing request leaves every earlier message unchanged
and places the request, with role user, last in the conversation that the
completion call receives. -/
theorem append_request_frame (messages : Conversation)
    (description selected_model : String) :
    (appendRequest messages description).take messages.length = messages ∧
    (appendRequest messages description).dropLast = messages ∧
    (appendRequest messages description).getLast? =
      some { role := "user", content := requestContent description } ∧
    (chatCompletionCreate selected_model (appendRequest messages description)).messages =
      appendRequest messages description := by
  refine ⟨?_, ?_, ?_, rfl⟩
  · exact List.take_left messages [{ role := "user", content := requestContent description }]
  · simp [appendRequest]
  · simp [appendRequest]

/-- C8: the completion call always passes temperature 0, inside the closed
interval from 0 to 2, and the value shown to the caller is the content of the
first choice's message of the completion response. -/
theorem completion_call_contract (selected_model : String) (messages : Conversation) :
    0 ≤ (chatCompletionCreate selected_model messages).temperature ∧
    (chatCompletionCreate selected_model messages).temperature ≤ 2 ∧
    ∀ (r : CompletionResponse) (c : Choice) (cs : List Choice),
      r.choices = c :: cs → displayedAnswer r = some c.message.content := by
  refine ⟨by norm_num [chatCompletionCreate], by norm_num [chatCompletionCreate], ?_⟩
  intro r c cs h
  simp [displayedAnswer, h]

/-- Witness for the completion-call contract on a one-choice response. -/
theorem completion_call_contract_witness :
    displayedAnswer
        { choices := [{ message := { role := "assistant", content := "Gravity pulls things down." } }] } =
      some "Gravity pulls things down." :=
  (completion_call_contract "gpt-4" []).2.2 _ _ [] rfl

/-- C9: `get_messages_by_role` is the order-preserving projection of contents
of the messages carrying the requested role: empty on the empty list, a
conditional singleton on a one-message list, a homomorphism for list
concatenation, and empty whenever no message carries the role.  It is a pure
function of its arguments, so the input list is never modified. -/
theorem get_messages_by_role_spec (l₁ l₂ ms : List Message) (m : Message) (r : String) :
    get_messages_by_role [] r = [] ∧
    get_messages_by_role [m] r = (if m.role == r then [m.content] else []) ∧
    get_messages_by_role (l₁ ++ l₂) r =
      get_messages_by_role l₁ r ++ get_messages_by_role l₂ r ∧
    ((∀ x ∈ ms, ¬ x.role = r) → get_messages_by_role ms r = []) := by
  refine ⟨rfl, ?_, ?_, ?_⟩
  · by_cases h : m.role == r <;> simp [get_messages_by_role, h]
  · simp [get_messages_by_role, List.filter_append]
  · intro h
    have hf : ms.filter (fun x => x.role == r) = [] := by
      rw [List.filter_eq_nil_iff]
      intro a ha
      simpa using h a ha
    simp [get_messages_by_role, hf]

/-- Witness for `get_messages_by_role` on a list with no system message. -/
theorem get_messages_by_role_spec_witness :
    get_messages_by_role [{ role := "user", content := "a" }] "system" = [] :=
  (get_messages_by_role_spec [] [] [{ role := "user", content := "a" }]
      { role := "user", content := "a" } "system").2.2.2 (by decide)

/-- C10: selecting the custom prompt rebuilds the conversation as exactly two
messages — one system message holding the empty-separator join of every
system-message content of the default prompt (which evaluates to the single
fixed system prompt), then one user message holding the edited text. -/
theorem custom_prompt_rebuild (areas_of_learning : List String) (n_results : Nat)
    (difficulty location user_message : String) :
    customMessages areas_of_learning n_results difficulty location user_message =
      [ { role := "system",
          content := String.join
            (get_messages_by_role
              (defaultMessages areas_of_learning n_results difficulty location) "system") },
        { role := "user", content := user_message } ] ∧
    (customMessages areas_of_learning n_results difficulty location user_message).map
        Message.role = ["system", "user"] ∧
    selected_system_messages areas_of_learning n_results difficulty location =
      systemMessageContent := by
  refine ⟨rfl, rfl, ?_⟩
  simp [selected_system_messages, defaultMessages, get_messages_by_role, String.join]

/-- C4: composition yields one message per template with the template role
sequence preserved verbatim, and appending the trailing request adds exactly
one more message whose role is user. -/
theorem compose_preserves_count_and_roles (ts : List Template)
    (ph : List (String × String)) (conv : Conversation) (description : String)
    (h : compose ts ph = Except.ok conv) :
    conv.length = ts.length ∧
    conv.map Message.role = ts.map Template.role ∧
    (appendRequest conv description).length = ts.length + 1 ∧
    (appendRequest conv description).map Message.role =
      ts.map Template.role ++ ["user"] := by
  obtain ⟨hl, hr⟩ := composeAux_spec ph ts 0 conv h
  refine ⟨hl, hr, ?_, ?_⟩ <;> simp [appendRequest, hl, hr]

/-- Witness for C4 on the end-to-end scenario templates. -/
theorem compose_preserves_count_and_roles_witness :
    demoConv.length = demoTemplates.length ∧
    demoConv.map Message.role = demoTemplates.map Template.role ∧
    (appendRequest demoConv "snail").length = demoTemplates.length + 1 ∧
    (appendRequest demoConv "snail").map Message.role =
      demoTemplates.map Template.role ++ ["user"] :=
  compose_preserves_count_and_roles demoTemplates demoPlaceholders demoConv "snail" rfl

/-- C2: whichever step of the generate pipeline fails — composition,
retrieval, or the completion call, in either retrieval mode — the
orchestrator returns the single failure type, a `GenerationError` carrying
that stage and the component's original cause. -/
theorem generate_wraps_each_failure
    (retrieveF : String → Nat → Except ComponentError (List String))
    (completeF : Conversation → String → ℚ → Except ComponentError String)
    (request : String) (config : GenConfig) :
    (∀ c, compose config.templates config.placeholders = Except.error c →
        generate retrieveF completeF request config =
          Except.error { stage := Stage.composing, cause := c }) ∧
    (∀ base c, compose config.templates config.placeholders = Except.ok base →
        config.useRetrieval = true →
        retrieveF request config.k = Except.error c →
        generate retrieveF completeF request config =
          Except.error { stage := Stage.retrieval, cause := c }) ∧
    (∀ base c, compose config.templates config.placeholders = Except.ok base →
        config.useRetrieval = false →
        completeF (base ++ [{ role := "user", content := request }])
            config.model config.temperature = Except.error c →
        generate retrieveF completeF request config =
          Except.error { stage := Stage.completing, cause := c }) ∧
    (∀ base texts c, compose config.templates config.placeholders = Except.ok base →
        config.useRetrieval = true →
        retrieveF request config.k = Except.ok texts →
        completeF (base ++ (texts.map (fun t => { role := "user", content := t }) ++
            [{ role := "user", content := request }])) config.model config.temperature =
          Except.error c →
        generate retrieveF completeF request config =
          Except.error { stage := Stage.completing, cause := c }) := by
  refine ⟨?_, ?_, ?_, ?_⟩
  · intro c h
    simp [generate, h, Except.mapError, Bind.bind, Except.bind]
  · intro base c h hret hr
    simp [generate, h, hret, hr, Except.mapError, Bind.bind, Except.bind, Except.map]
  · intro base c h hret hc
    simp [generate, h, hret, hc, Except.mapError, Bind.bind, Except.bind, Except.map]
  · intro base texts c h hret htexts hc
    simp [generate, h, hret, htexts, hc, Except.mapError, Bind.bind, Except.bind,
      Except.map]

/-- Witness for C2: with empty templates and a failing completion component,
generate reports exactly one completion-stage GenerationError. -/
theorem generate_wraps_each_failure_witness :
    generate emptyRetrieveF failingCompleteF "hi" demoConfig =
      Except.error
        ⟨Stage.completing, ComponentError.completionServiceError "remote failure"⟩ :=
  (generate_wraps_each_failure emptyRetrieveF failingCompleteF "hi"
    demoConfig).2.2.1 [] _ rfl rfl rfl

/-- C6: every message the activity-plan flow constructs — in the default
conversation, in the custom-prompt rebuild, and in the appended trailing
request — carries a role from the closed set of system, user and assistant,
and appending preserves that invariant for any conversation satisfying it. -/
theorem roles_closed (areas_of_learning : List String) (n_results : Nat)
    (difficulty location user_message : String) (conv : Conversation)
    (description : String) :
    (∀ m ∈ defaultMessages areas_of_learning n_results difficulty location,
        validRole m.role) ∧
    (∀ m ∈ customMessages areas_of_learning n_results difficulty location user_message,
        validRole m.role) ∧
    ((∀ m ∈ conv, validRole m.role) →
        ∀ m ∈ appendRequest conv description, validRole m.role) := by
  refine ⟨?_, ?_, ?_⟩
  · intro m hm
    simp only [defaultMessages, List.mem_cons, List.not_mem_nil, or_false] at hm
    rcases hm with h | h | h <;> subst h <;> simp [validRole]
  · intro m hm
    simp only [customMessages, List.mem_cons, List.not_mem_nil, or_false] at hm
    rcases hm with h | h <;> subst h <;> simp [validRole]
  · intro h m hm
    rcases List.mem_append.mp hm with h1 | h2
    · exact h m h1
    · simp only [List.mem_cons, List.not_mem_nil, or_false] at h2
      subst h2
      simp [validRole]

/-- Witness for C6: the appended request message of a concrete conversation
has a role in the closed set. -/
theorem roles_closed_witness :
    validRole (Message.mk "user" (requestContent "snail")).role := by
  have h := roles_closed [] 1 "Easy" "Indoor" "u" (defaultMessages [] 1 "Easy" "Indoor")
    "snail"
  exact h.2.2 h.1 (Message.mk "user" (requestContent "snail"))
    (by simp [appendRequest])

/-- C7: in the default conversation and in the custom-prompt rebuild all
system messages precede all user messages, appending the trailing user
request preserves that order, and composition transfers it from the template
role sequence to the composed conversation. -/
theorem system_messages_precede (areas_of_learning : List String) (n_results : Nat)
    (difficulty location user_message : String) (conv : Conversation)
    (description : String) (ts : List Template) (ph : List (String × String))
    (conv2 : Conversation) :
    systemFirst (defaultMessages areas_of_learning n_results difficulty location) ∧
    systemFirst (customMessages areas_of_learning n_results difficulty location
      user_message) ∧
    (systemFirst conv → systemFirst (appendRequest conv description)) ∧
    (compose ts ph = Except.ok conv2 →
        (ts.map Template.role).Pairwise (fun a b => a = "user" → b ≠ "system") →
        systemFirst conv2) := by
  refine ⟨?_, ?_, ?_, ?_⟩
  · simp [systemFirst, defaultMessages, List.pairwise_cons]
  · simp [systemFirst, customMessages, List.pairwise_cons]
  · intro h
    rw [systemFirst, appendRequest, List.pairwise_append]
    refine ⟨h, by simp, ?_⟩
    intro a _ b hb _
    simp only [List.mem_cons, List.not_mem_nil, or_false] at hb
    subst hb
    simp
  · intro h hp
    obtain ⟨-, hr⟩ := composeAux_spec ph ts 0 conv2 h
    rw [← hr] at hp
    exact List.pairwise_map.mp hp

/-- Witness for C7: the concrete appended custom conversation keeps system
messages ahead of user messages. -/
theorem system_messages_precede_witness :
    systemFirst (appendRequest (customMessages [] 1 "Easy" "Indoor" "u") "snail") := by
  have h := system_messages_precede [] 1 "Easy" "Indoor" "u"
    (customMessages [] 1 "Easy" "Indoor" "u") "snail" [] [] []
  exact h.2.2.1 h.2.1

end DiscoveryGenAI
